import Mathlib

set_option linter.unusedVariables false

/-!
# Verification of the AI Image Editor backend (`src/backend/server.py`)

Shallow embedding of the backend's handlers and helpers:

* the base64 codec used by `image_to_base64` / `base64.b64decode`
  (standard RFC 4648 base64, the algorithm of Python's `base64` module);
* the mask rasterizer of `create_mask` (PIL `ImageDraw.rectangle` fill,
  which includes both corner points);
* the edit-history read path (`db.image_edits.find().sort("timestamp", -1).limit(50)`);
* the HTTP handlers (`age_verify`, `upload_image`, `create_mask`,
  `remove_object`, `add_object`, `text_guided_edit`) as functions from their
  inputs and the outcomes of their external calls (store, file system,
  Replicate, result download) to an outcome plus an ordered effect trace.

External collaborators (Mongo, PIL decoding, Replicate, httpx) are modelled
as oracles: each handler receives the outcome each external call would have,
and the trace records which calls it actually performed, in order.
-/

namespace PhotoEdit

/-! ## Base64 codec (`image_to_base64`, `base64.b64decode`)

Bytes are `Nat`s below 256.  `b64CharOf` maps a sextet (0..63) to its
character in the RFC 4648 alphabet; `b64IndexOf` is its left inverse. -/

def b64CharOf (n : Nat) : Char :=
  if n < 26 then Char.ofNat (65 + n)
  else if n < 52 then Char.ofNat (71 + n)
  else if n < 62 then Char.ofNat (n - 4)
  else if n = 62 then '+'
  else '/'

def b64IndexOf (c : Char) : Nat :=
  if 65 ≤ c.toNat ∧ c.toNat ≤ 90 then c.toNat - 65
  else if 97 ≤ c.toNat ∧ c.toNat ≤ 122 then c.toNat - 71
  else if 48 ≤ c.toNat ∧ c.toNat ≤ 57 then c.toNat + 4
  else if c = '+' then 62
  else if c = '/' then 63
  else 0

/-- RFC 4648 base64 encoding of a byte list, with `=` padding, as produced by
`base64.b64encode` (the body of `image_to_base64`). -/
def b64encode : List Nat → List Char
  | [] => []
  | [a] => [b64CharOf (a / 4), b64CharOf (a % 4 * 16), '=', '=']
  | [a, b] => [b64CharOf (a / 4), b64CharOf (a % 4 * 16 + b / 16),
      b64CharOf (b % 16 * 4), '=']
  | a :: b :: c :: rest =>
      b64CharOf (a / 4) :: b64CharOf (a % 4 * 16 + b / 16) ::
      b64CharOf (b % 16 * 4 + c / 64) :: b64CharOf (c % 64) :: b64encode rest

/-- RFC 4648 base64 decoding (the algorithm of `base64.b64decode`): four
characters at a time, stopping at padding. -/
def b64decode : List Char → List Nat
  | c1 :: c2 :: c3 :: c4 :: rest =>
      if c3 = '=' then
        [b64IndexOf c1 * 4 + b64IndexOf c2 / 16]
      else if c4 = '=' then
        [b64IndexOf c1 * 4 + b64IndexOf c2 / 16,
         b64IndexOf c2 % 16 * 16 + b64IndexOf c3 / 4]
      else
        (b64IndexOf c1 * 4 + b64IndexOf c2 / 16) ::
        (b64IndexOf c2 % 16 * 16 + b64IndexOf c3 / 4) ::
        (b64IndexOf c3 % 4 * 64 + b64IndexOf c4) :: b64decode rest
  | _ => []

/-- `image_to_base64` on raw bytes (the `else` branch of the source helper):
base64-encode and decode to a UTF-8 string. -/
def image_to_base64 (imageBytes : List Nat) : String :=
  String.mk (b64encode imageBytes)

/-- `base64.b64decode` applied to a string payload. -/
def b64decodeStr (s : String) : List Nat :=
  b64decode s.data

lemma b64IndexOf_b64CharOf {n : Nat} (h : n < 64) :
    b64IndexOf (b64CharOf n) = n := by
  have key : ∀ m : Fin 64, b64IndexOf (b64CharOf m.val) = m.val := by decide
  exact key ⟨n, h⟩

lemma b64CharOf_ne_pad {n : Nat} (h : n < 64) : b64CharOf n ≠ '=' := by
  have key : ∀ m : Fin 64, b64CharOf m.val ≠ '=' := by decide
  exact key ⟨n, h⟩

lemma combine_div (x y k : Nat) (hk : 0 < k) (hy : y < k) :
    (x * k + y) / k = x := by
  rw [Nat.mul_comm x k, Nat.mul_add_div hk, Nat.div_eq_of_lt hy, Nat.add_zero]

lemma combine_mod (x y k : Nat) (hy : y < k) : (x * k + y) % k = y := by
  rw [Nat.mul_comm x k, Nat.mul_add_mod, Nat.mod_eq_of_lt hy]

lemma b64_roundtrip_list (l : List Nat) (hl : ∀ b ∈ l, b < 256) :
    b64decode (b64encode l) = l := by
  induction l using b64encode.induct with
  | case1 => simp [b64encode, b64decode]
  | case2 a =>
      have ha : a < 256 := hl a (by simp)
      have h1 : a / 4 < 64 := by omega
      have h2 : a % 4 * 16 < 64 := by omega
      simp only [b64encode, b64decode, if_pos rfl, if_true,
        b64IndexOf_b64CharOf h1, b64IndexOf_b64CharOf h2]
      have e2 : a % 4 * 16 / 16 = a % 4 := by
        have := combine_div (a % 4) 0 16 (by omega) (by omega)
        rwa [Nat.add_zero] at this
      rw [e2]
      simp only [List.cons.injEq, and_true]
      omega
  | case3 a b =>
      have ha : a < 256 := hl a (by simp)
      have hb : b < 256 := hl b (by simp)
      have h1 : a / 4 < 64 := by omega
      have h2 : a % 4 * 16 + b / 16 < 64 := by omega
      have h3 : b % 16 * 4 < 64 := by omega
      simp only [b64encode, b64decode, if_neg (b64CharOf_ne_pad h3), if_pos rfl,
        if_true, b64IndexOf_b64CharOf h1, b64IndexOf_b64CharOf h2,
        b64IndexOf_b64CharOf h3]
      have e2 : (a % 4 * 16 + b / 16) / 16 = a % 4 :=
        combine_div (a % 4) (b / 16) 16 (by omega) (by omega)
      have e3 : (a % 4 * 16 + b / 16) % 16 = b / 16 :=
        combine_mod (a % 4) (b / 16) 16 (by omega)
      have e4 : b % 16 * 4 / 4 = b % 16 := by
        have := combine_div (b % 16) 0 4 (by omega) (by omega)
        rwa [Nat.add_zero] at this
      rw [e2, e3, e4]
      simp only [List.cons.injEq, and_true]
      exact ⟨by omega, by omega⟩
  | case4 a b c rest ih =>
      have ha : a < 256 := hl a (by simp)
      have hb : b < 256 := hl b (by simp)
      have hc : c < 256 := hl c (by simp)
      have hrest : ∀ x ∈ rest, x < 256 := fun x hx => hl x (by simp [hx])
      have h1 : a / 4 < 64 := by omega
      have h2 : a % 4 * 16 + b / 16 < 64 := by omega
      have h3 : b % 16 * 4 + c / 64 < 64 := by omega
      have h4 : c % 64 < 64 := by omega
      simp only [b64encode, b64decode, if_neg (b64CharOf_ne_pad h3),
        if_neg (b64CharOf_ne_pad h4),
        b64IndexOf_b64CharOf h1, b64IndexOf_b64CharOf h2,
        b64IndexOf_b64CharOf h3, b64IndexOf_b64CharOf h4, ih hrest]
      have e2 : (a % 4 * 16 + b / 16) / 16 = a % 4 :=
        combine_div (a % 4) (b / 16) 16 (by omega) (by omega)
      have e3 : (a % 4 * 16 + b / 16) % 16 = b / 16 :=
        combine_mod (a % 4) (b / 16) 16 (by omega)
      have e4 : (b % 16 * 4 + c / 64) / 4 = b % 16 :=
        combine_div (b % 16) (c / 64) 4 (by omega) (by omega)
      have e5 : (b % 16 * 4 + c / 64) % 4 = c / 64 :=
        combine_mod (b % 16) (c / 64) 4 (by omega)
      rw [e2, e3, e4, e5]
      simp only [List.cons.injEq, and_true]
      exact ⟨by omega, by omega, by omega⟩

/-- C4: encoding any byte sequence with the codec of `image_to_base64` and
decoding the resulting text yields the original bytes exactly. -/
theorem base64_roundtrip (imageBytes : List Nat)
    (h : ∀ b ∈ imageBytes, b < 256) :
    b64decodeStr (image_to_base64 imageBytes) = imageBytes := by
  have : (String.mk (b64encode imageBytes)).data = b64encode imageBytes := rfl
  rw [b64decodeStr, image_to_base64, this, b64_roundtrip_list imageBytes h]

/-- C4 witness: the round trip at the concrete byte sequence `[0, 255, 10, 77]`. -/
theorem base64_roundtrip_witness :
    b64decodeStr (image_to_base64 [0, 255, 10, 77]) = [0, 255, 10, 77] :=
  base64_roundtrip [0, 255, 10, 77] (by decide)

/-! ## Mask rasterizer (`create_mask`, lines 135-158)

`Image.open` yields a canvas; `Image.new('L', image.size, 0)` creates a
single-channel (one `Nat` per pixel) raster of the same size filled with 0.
`draw.rectangle(coords, fill=255)` with PIL includes both corner points:
every pixel (x, y) with x1 ≤ x ≤ x2 and y1 ≤ y ≤ y2 is set to 255.
Coordinates are modelled as `Int` (no clamping happens in the source). -/

structure PILImage where
  width : Nat
  height : Nat
deriving DecidableEq, Repr

/-- A single-channel (`'L'` mode) raster: one intensity value per pixel. -/
structure Mask where
  width : Nat
  height : Nat
  pixel : Nat → Nat → Nat

/-- One `draw.rectangle(coords, fill=255)` call: PIL's rectangle fill is
inclusive of both corner points. Applied only to coordinate lists with at
least four entries (the handler's guard). -/
def fillRect (coords : List Int) (m : Nat → Nat → Nat) : Nat → Nat → Nat :=
  match coords with
  | x1 :: y1 :: x2 :: y2 :: _ =>
      fun x y =>
        if x1 ≤ (x : Int) ∧ (x : Int) ≤ x2 ∧ y1 ≤ (y : Int) ∧ (y : Int) ≤ y2
        then 255 else m x y
  | _ => m

/-- The drawing loop of `create_mask`: for each entry with at least four
coordinate values, fill its rectangle; shorter entries are skipped. -/
def drawMask (maskCoords : List (List Int)) (init : Nat → Nat → Nat) :
    Nat → Nat → Nat :=
  maskCoords.foldl (fun m coords => if 4 ≤ coords.length then fillRect coords m else m) init

/-- The raster produced by `create_mask` from a decoded source image and the
parsed `mask_data` list: a same-size single-channel canvas, initialized to 0
(black), with each well-formed rectangle filled white. -/
def create_mask_raster (image : PILImage) (maskCoords : List (List Int)) : Mask :=
  { width := image.width
    height := image.height
    pixel := drawMask maskCoords (fun _ _ => 0) }

/-- Whether a rectangle entry actually covers pixel (x, y): it has at least
four coordinates and (x, y) lies inside the inclusive corner range. -/
def rectCovers (coords : List Int) (x y : Nat) : Bool :=
  match coords with
  | x1 :: y1 :: x2 :: y2 :: _ =>
      4 ≤ coords.length ∧ x1 ≤ (x : Int) ∧ (x : Int) ≤ x2 ∧
        y1 ≤ (y : Int) ∧ (y : Int) ≤ y2
  | _ => false

lemma fillRect_not_covered {coords : List Int} {x y : Nat}
    (hlen : 4 ≤ coords.length) (h : rectCovers coords x y = false)
    (m : Nat → Nat → Nat) : fillRect coords m x y = m x y := by
  match coords with
  | x1 :: y1 :: x2 :: y2 :: tail =>
      simp only [rectCovers, decide_eq_false_iff_not, not_and] at h
      simp only [fillRect]
      rw [if_neg]
      intro hc
      exact (h (by simp) hc.1 hc.2.1 hc.2.2.1) hc.2.2.2

lemma drawMask_cons (c : List Int) (cs : List (List Int))
    (init : Nat → Nat → Nat) :
    drawMask (c :: cs) init =
      drawMask cs (if 4 ≤ c.length then fillRect c init else init) := rfl

lemma drawMask_not_covered (maskCoords : List (List Int)) (x y : Nat) :
    ∀ init : Nat → Nat → Nat,
      (∀ coords ∈ maskCoords, rectCovers coords x y = false) →
      drawMask maskCoords init x y = init x y := by
  induction maskCoords with
  | nil => intro init _; rfl
  | cons c cs ih =>
      intro init h
      have hc := h c (by simp)
      have hcs : ∀ coords ∈ cs, rectCovers coords x y = false :=
        fun d hd => h d (by simp [hd])
      rw [drawMask_cons]
      by_cases hlen : 4 ≤ c.length
      · rw [if_pos hlen, ih _ hcs, fillRect_not_covered hlen hc]
      · rw [if_neg hlen]
        exact ih init hcs

/-- C8: for every decoded source image and every rectangle list, the mask
built by `create_mask` is a single-channel raster of exactly the source
image's width and height, and any pixel covered by no rectangle entry keeps
its initial unselected (black, 0) value. -/
theorem mask_dims_and_init (image : PILImage) (maskCoords : List (List Int))
    (x y : Nat)
    (h : ∀ coords ∈ maskCoords, rectCovers coords x y = false) :
    (create_mask_raster image maskCoords).width = image.width ∧
    (create_mask_raster image maskCoords).height = image.height ∧
    (create_mask_raster image maskCoords).pixel x y = 0 :=
  ⟨rfl, rfl, drawMask_not_covered maskCoords x y (fun _ _ => 0) h⟩

/-- C8 witness: on a 3×2 image with one rectangle `[0,0,1,1]`, pixel (2,0)
is uncovered and the produced raster keeps its dimensions and is black there. -/
theorem mask_dims_and_init_witness :
    (∀ coords ∈ [[(0 : Int), 0, 1, 1]], rectCovers coords 2 0 = false) ∧
    (create_mask_raster ⟨3, 2⟩ [[(0 : Int), 0, 1, 1]]).width = 3 ∧
    (create_mask_raster ⟨3, 2⟩ [[(0 : Int), 0, 1, 1]]).height = 2 ∧
    (create_mask_raster ⟨3, 2⟩ [[(0 : Int), 0, 1, 1]]).pixel 2 0 = 0 := by
  refine ⟨by decide, ?_⟩
  have := mask_dims_and_init ⟨3, 2⟩ [[(0 : Int), 0, 1, 1]] 2 0 (by decide)
  exact ⟨this.1, this.2.1, this.2.2⟩

/-- C5: on a 100×100 source image with the single rectangle `[25,25,75,75]`,
every pixel of the produced raster is white (255) inside the inclusive
coordinate range (25,25)-(75,75) and black (0) everywhere else. -/
theorem mask_rect_25_75 (x y : Nat) (_hx : x < 100) (_hy : y < 100) :
    (create_mask_raster ⟨100, 100⟩ [[(25 : Int), 25, 75, 75]]).pixel x y =
      if 25 ≤ x ∧ x ≤ 75 ∧ 25 ≤ y ∧ y ≤ 75 then 255 else 0 := by
  show drawMask [[(25 : Int), 25, 75, 75]] (fun _ _ => 0) x y = _
  simp only [drawMask, List.foldl_cons, List.foldl_nil, List.length_cons,
    List.length_nil, fillRect]
  rw [if_pos (by omega)]
  by_cases h : 25 ≤ x ∧ x ≤ 75 ∧ 25 ≤ y ∧ y ≤ 75
  · rw [if_pos (by constructor <;> [exact_mod_cast h.1;
      refine ⟨?_, ?_, ?_⟩ <;> [exact_mod_cast h.2.1; exact_mod_cast h.2.2.1;
        exact_mod_cast h.2.2.2]]), if_pos h]
  · rw [if_neg, if_neg h]
    intro hc
    exact h ⟨by exact_mod_cast hc.1, by exact_mod_cast hc.2.1,
      by exact_mod_cast hc.2.2.1, by exact_mod_cast hc.2.2.2⟩

/-- C5 witness: concrete pixels (25,25) inside and (24,80) outside the block. -/
theorem mask_rect_25_75_witness :
    (create_mask_raster ⟨100, 100⟩ [[(25 : Int), 25, 75, 75]]).pixel 25 25 = 255 ∧
    (create_mask_raster ⟨100, 100⟩ [[(25 : Int), 25, 75, 75]]).pixel 24 80 = 0 := by
  constructor
  · have := mask_rect_25_75 25 25 (by decide) (by decide)
    rw [this]
    norm_num
  · have := mask_rect_25_75 24 80 (by decide) (by decide)
    rw [this]
    norm_num

/-- C9: a `mask_data` entry with fewer than four coordinate values is
skipped entirely: the mask produced from any list containing it equals the
mask produced from the list with that entry removed. -/
theorem short_rect_entry_skipped (image : PILImage) (entry : List Int)
    (pre post : List (List Int)) (h : entry.length < 4) :
    create_mask_raster image (pre ++ entry :: post) =
      create_mask_raster image (pre ++ post) := by
  unfold create_mask_raster
  have : drawMask (pre ++ entry :: post) (fun _ _ => 0) =
      drawMask (pre ++ post) (fun _ _ => 0) := by
    unfold drawMask
    rw [List.foldl_append, List.foldl_append, List.foldl_cons, if_neg (by omega)]
  rw [this]

/-- C9 witness: removing the short entry `[1, 2]` between two rectangles
leaves the produced mask unchanged. -/
theorem short_rect_entry_skipped_witness :
    create_mask_raster ⟨10, 10⟩ ([[(0 : Int), 0, 3, 3]] ++ [(1 : Int), 2] :: [[(5 : Int), 5, 7, 7]]) =
      create_mask_raster ⟨10, 10⟩ ([[(0 : Int), 0, 3, 3]] ++ [[(5 : Int), 5, 7, 7]]) :=
  short_rect_entry_skipped ⟨10, 10⟩ [(1 : Int), 2]
    [[(0 : Int), 0, 3, 3]] [[(5 : Int), 5, 7, 7]] (by decide)

/-! ## Store records and the edit-history read path

`db.image_edits` documents combine `ImageEditRequest` and
`ImageEditResponse` fields (`{**edit_record.dict(), **response.dict()}`).
`get_edit_history` reads `find().sort("timestamp", -1).limit(50)`: the
documents sorted by timestamp descending, truncated to 50. -/

structure EditDoc where
  id : String
  operation_type : String
  prompt : String
  timestamp : Nat
  result_image_base64 : String
  processing_time : Nat
deriving DecidableEq, Repr

/-- Descending insertion by timestamp (the store's `sort("timestamp", -1)`). -/
def insertDesc (r : EditDoc) : List EditDoc → List EditDoc
  | [] => [r]
  | x :: xs =>
      if x.timestamp ≤ r.timestamp then r :: x :: xs else x :: insertDesc r xs

def sortByTimestampDesc : List EditDoc → List EditDoc
  | [] => []
  | x :: xs => insertDesc x (sortByTimestampDesc xs)

/-- `get_edit_history`: the stored edit documents sorted by timestamp
descending, limited to the 50 most recent. -/
def get_edit_history (store : List EditDoc) : List EditDoc :=
  (sortByTimestampDesc store).take 50

/-- C6: edit records inserted with timestamps T1 < T2 < T3 come back from
the edit-history read path in descending order (T3, T2, T1), and the read
path never returns more than 50 records. -/
theorem edit_history_order_and_limit (r1 r2 r3 : EditDoc)
    (h12 : r1.timestamp < r2.timestamp) (h23 : r2.timestamp < r3.timestamp) :
    get_edit_history [r1, r2, r3] = [r3, r2, r1] ∧
      ∀ store : List EditDoc, (get_edit_history store).length ≤ 50 := by
  constructor
  · have e3 : sortByTimestampDesc [r3] = [r3] := rfl
    have e2 : sortByTimestampDesc [r2, r3] = [r3, r2] := by
      show insertDesc r2 (sortByTimestampDesc [r3]) = [r3, r2]
      rw [e3]
      unfold insertDesc
      rw [if_neg (by omega)]
      rfl
    have e1 : sortByTimestampDesc [r1, r2, r3] = [r3, r2, r1] := by
      show insertDesc r1 (sortByTimestampDesc [r2, r3]) = [r3, r2, r1]
      rw [e2]
      unfold insertDesc
      rw [if_neg (by omega)]
      unfold insertDesc
      rw [if_neg (by omega)]
      rfl
    rw [get_edit_history, e1]
    rfl
  · intro store
    exact List.length_take_le 50 (sortByTimestampDesc store)

/-- C6 witness: three concrete records with timestamps 1 < 2 < 3. -/
theorem edit_history_order_and_limit_witness :
    get_edit_history
        [⟨"a", "remove_object", "p", 1, "r", 0⟩,
         ⟨"b", "add_object", "q", 2, "s", 0⟩,
         ⟨"c", "text_guided_edit", "t", 3, "u", 0⟩] =
      [⟨"c", "text_guided_edit", "t", 3, "u", 0⟩,
       ⟨"b", "add_object", "q", 2, "s", 0⟩,
       ⟨"a", "remove_object", "p", 1, "r", 0⟩] ∧
      ∀ store : List EditDoc, (get_edit_history store).length ≤ 50 :=
  edit_history_order_and_limit
    ⟨"a", "remove_object", "p", 1, "r", 0⟩
    ⟨"b", "add_object", "q", 2, "s", 0⟩
    ⟨"c", "text_guided_edit", "t", 3, "u", 0⟩
    (by decide) (by decide)

/-! ## HTTP handlers as effect-traced functions

Each handler is modelled as a pure function from its request inputs plus the
outcomes its external calls would have (an `Env` of oracles for the store,
the file system, the Replicate call and the result download) to a pair of
an outcome and the ordered trace of external actions it completed.

Outcomes distinguish a successful body, an `HTTPException` raised by the
handler itself, and an exception that left the handler uncaught (the source
handler has no try/except around the failing call). -/

structure ReplicateClient where
  apiToken : String
deriving DecidableEq, Repr

/-- Modelled from the spec: the construction of the external provider client
at process start (lines 56-62, `replicate.Client(api_token=...)` inside
try/except). The Replicate library is an external collaborator; per the
spec, construction fails — leaving the module-level client at None — exactly
when the provider credential is absent at startup. -/
def replicate_client (apiKey : Option String) : Option ReplicateClient :=
  apiKey.map ReplicateClient.mk

structure ImageDoc where
  id : String
  filename : String
  original_name : String
  content_type : String
  size : Nat
  base64_data : String
  timestamp : Nat
deriving DecidableEq, Repr

structure AgeVerification where
  verified : Bool
  timestamp : Nat
deriving DecidableEq, Repr

/-- One completed external action of a handler, in execution order. -/
inductive Effect where
  | fileWrite (path : String) (content : List Nat)
  | replicateCall (model : String)
  | httpDownload (url : String)
  | insertAgeVerification (record : AgeVerification)
  | insertImage (record : ImageDoc)
  | insertEdit (record : EditDoc)
  | fileDelete (path : String)
deriving DecidableEq, Repr

/-- Outcome of one handler invocation: a successful body, an HTTPException
raised by the handler, or an exception that escaped the handler uncaught. -/
inductive HandlerResult (α : Type) where
  | ok (body : α)
  | httpError (statusCode : Nat) (detail : String)
  | uncaught (message : String)
deriving DecidableEq, Repr

def HandlerResult.isUncaught {α : Type} : HandlerResult α → Bool
  | .uncaught _ => true
  | _ => false

/-- Output of a Replicate run: a single URL or a list of URLs. -/
inductive RepOutput where
  | single (url : String)
  | urlList (urls : List String)
deriving DecidableEq, Repr

/-- The handlers' result-URL normalization: first element when the output is
a list, the output itself otherwise; `none` is the IndexError raised by
indexing an empty list. -/
def resultUrl : RepOutput → Option String
  | .single u => some u
  | .urlList us => us.head?

/-- Outcomes the environment would hand each external call of a handler,
plus the generated identifiers and clock readings. -/
structure Env where
  imgDecode : Except String (List Nat)
  maskDecode : Except String (List Nat)
  repResult : Except String RepOutput
  dlResult : Except String (List Nat)
  dbResult : Except String Unit
  now0 : Nat
  now1 : Nat
  uuid1 : String
  uuid2 : String
  newId : String

structure StatusResponse where
  status : String
  message : String
deriving DecidableEq, Repr

structure UploadResponse where
  id : String
  filename : String
  base64 : String
  size : Nat
deriving DecidableEq, Repr

structure ImageEditResponse where
  id : String
  result_image_base64 : String
  operation_type : String
  processing_time : Nat
deriving DecidableEq, Repr

/-- POST /age-verify (lines 84-88): one store insert, then a constant
success body. The handler has no try/except: a store failure escapes it. -/
def age_verify (verification : AgeVerification)
    (dbResult : Except String Unit) :
    HandlerResult StatusResponse × List Effect :=
  match dbResult with
  | .error e => (.uncaught e, [])
  | .ok _ =>
      (.ok ⟨"verified", "Age verification completed"⟩,
       [.insertAgeVerification verification])

/-- Python str.startswith: character-level test that p is a leading piece
of s (used on the declared content type at line 93). -/
def startswith (s p : String) : Bool :=
  p.data.isPrefixOf s.data

/-- The filename-extension computation of upload_image (line 98). -/
def fileExtension (name : String) : String :=
  if name.contains '.' then (name.splitOn ".").getLastD "jpg" else "jpg"

/-- POST /upload-image (lines 90-127): content-type gate, file save, base64
encode, store insert, response. No try/except: failures after the gate
escape the handler. -/
def upload_image (contentType originalName : String) (content : List Nat)
    (fileId : String) (now : Nat)
    (writeResult dbResult : Except String Unit) :
    HandlerResult UploadResponse × List Effect :=
  if startswith contentType "image/" = false then
    (.httpError 400 "File must be an image", [])
  else
    let filename := fileId ++ "." ++ fileExtension originalName
    match writeResult with
    | .error e => (.uncaught e, [])
    | .ok _ =>
        let b64 := image_to_base64 content
        match dbResult with
        | .error e => (.uncaught e, [.fileWrite ("uploads/" ++ filename) content])
        | .ok _ =>
            (.ok ⟨fileId, filename, b64, content.length⟩,
             [.fileWrite ("uploads/" ++ filename) content,
              .insertImage ⟨fileId, filename, originalName, contentType,
                content.length, b64, now⟩])

/-- POST /create-mask (lines 129-161): decode and open the source image,
parse the rectangle list, rasterize. Every failure is caught and mapped to
a 500 with the underlying message. -/
def create_mask (imgOpen : Except String PILImage)
    (parseCoords : Except String (List (List Int))) :
    HandlerResult Mask × List Effect :=
  match imgOpen with
  | .error e => (.httpError 500 ("Failed to create mask: " ++ e), [])
  | .ok image =>
      match parseCoords with
      | .error e => (.httpError 500 ("Failed to create mask: " ++ e), [])
      | .ok maskCoords => (.ok (create_mask_raster image maskCoords), [])

/-- The common tail of the three edit handlers (Replicate call, result-URL
normalization, download, edit-record insert, temp-file cleanup), literal in
each of remove_object, add_object and text_guided_edit. `failMsg` is the
handler's error message head, `written` the temp files already written,
`cleanup` the unlink actions of its success path. -/
def editTail (failMsg model operationType prompt : String)
    (written cleanup : List Effect) (env : Env) :
    HandlerResult ImageEditResponse × List Effect :=
  match env.repResult with
  | .error e => (.httpError 500 (failMsg ++ e), written ++ [.replicateCall model])
  | .ok output =>
      let called := written ++ [.replicateCall model]
      match resultUrl output with
      | none => (.httpError 500 (failMsg ++ "list index out of range"), called)
      | some url =>
          match env.dlResult with
          | .error e => (.httpError 500 (failMsg ++ e), called ++ [.httpDownload url])
          | .ok resultBytes =>
              let downloaded := called ++ [.httpDownload url]
              let processingTime := env.now1 - env.now0
              let doc : EditDoc := ⟨env.newId, operationType, prompt, env.now1,
                image_to_base64 resultBytes, processingTime⟩
              match env.dbResult with
              | .error e => (.httpError 500 (failMsg ++ e), downloaded)
              | .ok _ =>
                  (.ok ⟨env.newId, image_to_base64 resultBytes, operationType,
                      processingTime⟩,
                   downloaded ++ (.insertEdit doc :: cleanup))

/-- POST /remove-object (lines 163-234): configuration gate, decode both
payloads, write two temp files, then the common edit tail on the
inpainting model. All failures inside the try block map to a 500. -/
def remove_object (client : Option ReplicateClient)
    (image_base64 mask_base64 prompt : String) (env : Env) :
    HandlerResult ImageEditResponse × List Effect :=
  match client with
  | none =>
      (.httpError 500 "Replicate API not configured. Please set REPLICATE_API_KEY.", [])
  | some _ =>
      match env.imgDecode with
      | .error e => (.httpError 500 ("Failed to remove object: " ++ e), [])
      | .ok imageData =>
          match env.maskDecode with
          | .error e => (.httpError 500 ("Failed to remove object: " ++ e), [])
          | .ok maskData =>
              let imagePath := "uploads/temp_image_" ++ env.uuid1 ++ ".png"
              let maskPath := "uploads/temp_mask_" ++ env.uuid2 ++ ".png"
              editTail "Failed to remove object: " "zsxkib/flux-dev-inpainting"
                "remove_object" prompt
                [.fileWrite imagePath imageData, .fileWrite maskPath maskData]
                [.fileDelete imagePath, .fileDelete maskPath] env

/-- POST /add-object (lines 236-311): configuration gate, decode the image,
write its temp file, then — when a mask is provided — decode and write the
mask and run the inpainting model, else run the plain generation model. -/
def add_object (client : Option ReplicateClient)
    (image_base64 prompt : String) (mask_base64 : Option String) (env : Env) :
    HandlerResult ImageEditResponse × List Effect :=
  match client with
  | none =>
      (.httpError 500 "Replicate API not configured. Please set REPLICATE_API_KEY.", [])
  | some _ =>
      match env.imgDecode with
      | .error e => (.httpError 500 ("Failed to add object: " ++ e), [])
      | .ok imageData =>
          let imagePath := "uploads/temp_image_" ++ env.uuid1 ++ ".png"
          match mask_base64 with
          | some _ =>
              match env.maskDecode with
              | .error e =>
                  (.httpError 500 ("Failed to add object: " ++ e),
                   [.fileWrite imagePath imageData])
              | .ok maskData =>
                  let maskPath := "uploads/temp_mask_" ++ env.uuid2 ++ ".png"
                  editTail "Failed to add object: " "zsxkib/flux-dev-inpainting"
                    "add_object" prompt
                    [.fileWrite imagePath imageData, .fileWrite maskPath maskData]
                    [.fileDelete imagePath, .fileDelete maskPath] env
          | none =>
              editTail "Failed to add object: " "black-forest-labs/flux-dev"
                "add_object" prompt
                [.fileWrite imagePath imageData]
                [.fileDelete imagePath] env

/-- POST /text-guided-edit (lines 313-376): configuration gate, decode the
image, write its temp file, then the common edit tail on the pix2pix model.
The negative_prompt field is accepted but never used. -/
def text_guided_edit (client : Option ReplicateClient)
    (image_base64 prompt negative_prompt : String) (env : Env) :
    HandlerResult ImageEditResponse × List Effect :=
  match client with
  | none =>
      (.httpError 500 "Replicate API not configured. Please set REPLICATE_API_KEY.", [])
  | some _ =>
      match env.imgDecode with
      | .error e => (.httpError 500 ("Failed to perform text-guided edit: " ++ e), [])
      | .ok imageData =>
          let imagePath := "uploads/temp_image_" ++ env.uuid1 ++ ".png"
          editTail "Failed to perform text-guided edit: "
            "timothybrooks/instruct-pix2pix" "text_guided_edit" prompt
            [.fileWrite imagePath imageData]
            [.fileDelete imagePath] env

/-- The edit records a trace writes to the store. -/
def insertedEdits (trace : List Effect) : List EditDoc :=
  trace.filterMap fun e =>
    match e with
    | .insertEdit d => some d
    | _ => none

/-- Whether an external call raised. -/
def failed {β : Type} : Except String β → Bool
  | .error _ => true
  | .ok _ => false

lemma insertedEdits_append (a b : List Effect) :
    insertedEdits (a ++ b) = insertedEdits a ++ insertedEdits b := by
  unfold insertedEdits
  exact List.filterMap_append a b _

lemma editTail_no_insert (failMsg model operationType prompt : String)
    (written cleanup : List Effect) (env : Env)
    (hw : insertedEdits written = [])
    (h : failed env.repResult = true ∨ failed env.dlResult = true) :
    insertedEdits
      (editTail failMsg model operationType prompt written cleanup env).2 = [] := by
  obtain ⟨imgD, maskD, repR, dlR, dbR, n0, n1, u1, u2, nid⟩ := env
  cases repR with
  | error e =>
      show insertedEdits (written ++ [.replicateCall model]) = []
      rw [insertedEdits_append, hw]
      rfl
  | ok output =>
      have step2 : ∀ url : String,
          insertedEdits
            ((written ++ [.replicateCall model]) ++ [.httpDownload url]) = [] := by
        intro url
        rw [insertedEdits_append, insertedEdits_append, hw]
        rfl
      have hdl : failed dlR = true := by
        rcases h with h | h
        · simp [failed] at h
        · exact h
      cases output with
      | single url =>
          cases dlR with
          | error e => exact step2 url
          | ok resultBytes => simp [failed] at hdl
      | urlList urls =>
          cases urls with
          | nil =>
              show insertedEdits (written ++ [.replicateCall model]) = []
              rw [insertedEdits_append, hw]
              rfl
          | cons url rest =>
              cases dlR with
              | error e => exact step2 url
              | ok resultBytes => simp [failed] at hdl

lemma editTail_not_uncaught (failMsg model operationType prompt : String)
    (written cleanup : List Effect) (env : Env) :
    (editTail failMsg model operationType prompt written cleanup env).1.isUncaught
      = false := by
  obtain ⟨imgD, maskD, repR, dlR, dbR, n0, n1, u1, u2, nid⟩ := env
  cases repR with
  | error e => rfl
  | ok output =>
      cases output with
      | single url =>
          cases dlR with
          | error e => rfl
          | ok resultBytes => cases dbR <;> rfl
      | urlList urls =>
          cases urls with
          | nil => rfl
          | cons url rest =>
              cases dlR with
              | error e => rfl
              | ok resultBytes => cases dbR <;> rfl

/-- C1: in each edit handler (remove_object, add_object, text_guided_edit),
if the Replicate call or the result download fails, no edit record is
inserted into the store: the insert sits strictly after both succeeded. -/
theorem edit_insert_only_after_success (client : Option ReplicateClient)
    (image_base64 mask_base64 prompt negative_prompt : String)
    (maskOpt : Option String) (env : Env)
    (h : failed env.repResult = true ∨ failed env.dlResult = true) :
    insertedEdits (remove_object client image_base64 mask_base64 prompt env).2
        = [] ∧
    insertedEdits (add_object client image_base64 prompt maskOpt env).2 = [] ∧
    insertedEdits
        (text_guided_edit client image_base64 prompt negative_prompt env).2
        = [] := by
  obtain ⟨imgD, maskD, repR, dlR, dbR, n0, n1, u1, u2, nid⟩ := env
  refine ⟨?_, ?_, ?_⟩
  · cases client with
    | none => rfl
    | some c =>
        cases imgD with
        | error e => rfl
        | ok imageData =>
            cases maskD with
            | error e => rfl
            | ok maskData => exact editTail_no_insert _ _ _ _ _ _ _ rfl h
  · cases client with
    | none => rfl
    | some c =>
        cases imgD with
        | error e => rfl
        | ok imageData =>
            cases maskOpt with
            | none => exact editTail_no_insert _ _ _ _ _ _ _ rfl h
            | some m =>
                cases maskD with
                | error e => rfl
                | ok maskData => exact editTail_no_insert _ _ _ _ _ _ _ rfl h
  · cases client with
    | none => rfl
    | some c =>
        cases imgD with
        | error e => rfl
        | ok imageData => exact editTail_no_insert _ _ _ _ _ _ _ rfl h

/-- C1 witness: with a failing Replicate call, none of the three edit
handlers writes an edit record. -/
theorem edit_insert_only_after_success_witness :
    insertedEdits (remove_object (some ⟨"key"⟩) "img" "msk" "p"
        ⟨.ok [], .ok [], .error "boom", .ok [], .ok (), 0, 1, "u1", "u2", "id"⟩).2
        = [] ∧
    insertedEdits (add_object (some ⟨"key"⟩) "img" "p" none
        ⟨.ok [], .ok [], .error "boom", .ok [], .ok (), 0, 1, "u1", "u2", "id"⟩).2
        = [] ∧
    insertedEdits (text_guided_edit (some ⟨"key"⟩) "img" "p" "n"
        ⟨.ok [], .ok [], .error "boom", .ok [], .ok (), 0, 1, "u1", "u2", "id"⟩).2
        = [] :=
  edit_insert_only_after_success (some ⟨"key"⟩) "img" "msk" "p" "n" none
    ⟨.ok [], .ok [], .error "boom", .ok [], .ok (), 0, 1, "u1", "u2", "id"⟩
    (Or.inl rfl)

/-- C2: with the provider credential absent at process start the client is
never constructed, and every inference endpoint returns the configuration
error with an empty effect trace: no network call, no temp-file write. -/
theorem missing_credential_config_error
    (image_base64 mask_base64 prompt negative_prompt : String)
    (maskOpt : Option String) (env : Env) :
    remove_object (replicate_client none) image_base64 mask_base64 prompt env =
      (.httpError 500
        "Replicate API not configured. Please set REPLICATE_API_KEY.", []) ∧
    add_object (replicate_client none) image_base64 prompt maskOpt env =
      (.httpError 500
        "Replicate API not configured. Please set REPLICATE_API_KEY.", []) ∧
    text_guided_edit (replicate_client none) image_base64 prompt
        negative_prompt env =
      (.httpError 500
        "Replicate API not configured. Please set REPLICATE_API_KEY.", []) :=
  ⟨rfl, rfl, rfl⟩

/-- C3 counterexample: age_verify has no try/except, so a store failure at
a concrete input escapes the handler uncaught instead of being converted to
a uniform error response. -/
theorem age_verify_uncaught_counterexample :
    (age_verify ⟨true, 5⟩ (.error "insert failed")).1.isUncaught = true ∧
    (age_verify ⟨true, 5⟩ (.error "insert failed")).1 =
      .uncaught "insert failed" :=
  ⟨rfl, rfl⟩

/-- C3 amended: the four handlers wrapped in try/except (create_mask,
remove_object, add_object, text_guided_edit) catch every internal failure
at their boundary and convert it to a uniform error response; age_verify
and upload_image do not, so failures there can escape uncaught. -/
theorem catchall_handlers_never_uncaught (client : Option ReplicateClient)
    (imgOpen : Except String PILImage)
    (parseCoords : Except String (List (List Int)))
    (image_base64 mask_base64 prompt negative_prompt : String)
    (maskOpt : Option String) (env : Env) :
    (create_mask imgOpen parseCoords).1.isUncaught = false ∧
    (remove_object client image_base64 mask_base64 prompt env).1.isUncaught
        = false ∧
    (add_object client image_base64 prompt maskOpt env).1.isUncaught = false ∧
    (text_guided_edit client image_base64 prompt
        negative_prompt env).1.isUncaught = false := by
  obtain ⟨imgD, maskD, repR, dlR, dbR, n0, n1, u1, u2, nid⟩ := env
  refine ⟨?_, ?_, ?_, ?_⟩
  · cases imgOpen with
    | error e => rfl
    | ok image =>
        cases parseCoords with
        | error e => rfl
        | ok maskCoords => rfl
  · cases client with
    | none => rfl
    | some c =>
        cases imgD with
        | error e => rfl
        | ok imageData =>
            cases maskD with
            | error e => rfl
            | ok maskData => exact editTail_not_uncaught _ _ _ _ _ _ _
  · cases client with
    | none => rfl
    | some c =>
        cases imgD with
        | error e => rfl
        | ok imageData =>
            cases maskOpt with
            | none => exact editTail_not_uncaught _ _ _ _ _ _ _
            | some m =>
                cases maskD with
                | error e => rfl
                | ok maskData => exact editTail_not_uncaught _ _ _ _ _ _ _
  · cases client with
    | none => rfl
    | some c =>
        cases imgD with
        | error e => rfl
        | ok imageData => exact editTail_not_uncaught _ _ _ _ _ _ _

/-- C7: an upload whose declared content type does not start with image/ is
rejected with the 400 client error and an empty effect trace: no file saved
and no store write. -/
theorem upload_reject_non_image (contentType originalName : String)
    (content : List Nat) (fileId : String) (now : Nat)
    (writeResult dbResult : Except String Unit)
    (h : startswith contentType "image/" = false) :
    upload_image contentType originalName content fileId now
        writeResult dbResult =
      (.httpError 400 "File must be an image", []) := by
  unfold upload_image
  rw [h]
  rfl

/-- C7 witness: a text/plain upload is rejected with no effects. -/
theorem upload_reject_non_image_witness :
    upload_image "text/plain" "a.txt" [1, 2] "fid" 0 (.ok ()) (.ok ()) =
      (.httpError 400 "File must be an image", []) :=
  upload_reject_non_image "text/plain" "a.txt" [1, 2] "fid" 0
    (.ok ()) (.ok ()) (by decide)

/-- C10: for every age-verification body — the verified flag may be false —
the handler inserts the record and returns the same constant success
response; the response never depends on the body. -/
theorem age_verify_constant_response (verification : AgeVerification) :
    age_verify verification (.ok ()) =
      (.ok ⟨"verified", "Age verification completed"⟩,
       [.insertAgeVerification verification]) ∧
    ∀ other : AgeVerification,
      (age_verify verification (.ok ())).1 = (age_verify other (.ok ())).1 :=
  ⟨rfl, fun _ => rfl⟩

end PhotoEdit
